import Mathlib

/-!
Shallow embedding of `src/services/games.service.js` (Moleculer "games"
resource service).  Stored documents live in an in-memory list standing for
the entity store; the moleculer-db adapter operations (`find`, `count`,
`findOne`, `updateById`, `removeById`) are modelled as pure functions on that
list, and each action handler becomes a pure function from the store and the
request parameters to the resulting store and response.
-/

namespace GamesService

/-- A stored game document.  Fields are the ones the `create` handler writes
(lines 73-76) plus `_id` assigned by the store and `tagList`, which the
`list` handler filters on (line 167). -/
structure Game where
  _id : String
  slug : String
  name : String
  description : String
  creator : String
  createdAt : Nat
  updatedAt : Nat
  tagList : List String
deriving Repr, DecidableEq

/-- The entity store: the list of stored game documents, in insertion order. -/
abbrev Store := List Game

/-- JS property access on a stored game document, by field name.  A field the
document does not carry reads as `none` (JS `undefined`); in particular game
documents have no `game` field. -/
def Game.getField (g : Game) : String → Option String
  | "_id" => some g._id
  | "slug" => some g.slug
  | "name" => some g.name
  | "description" => some g.description
  | "creator" => some g.creator
  | _ => none

/-- `ctx.params.limit ? Number(ctx.params.limit) : 20` (lines 154 and 228).
JS truthiness: a missing parameter and a supplied `0` are both falsy. -/
def effLimit : Option Nat → Nat
  | some l => if l ≠ 0 then l else 20
  | none => 20

/-- `ctx.params.offset ? Number(ctx.params.offset) : 0` (lines 155 and 229). -/
def effOffset : Option Nat → Nat
  | some o => if o ≠ 0 then o else 0
  | none => 0

/-- Insert a document into a list already sorted by descending `createdAt`,
keeping the sort stable. -/
def insertDesc (g : Game) : List Game → List Game
  | [] => [g]
  | h :: t => if h.createdAt < g.createdAt then g :: h :: t else h :: insertDesc g t

/-- The adapter sort `sort: ["-createdAt"]`: stable sort by descending
`createdAt`. -/
def sortByCreatedAtDesc : List Game → List Game
  | [] => []
  | h :: t => insertDesc h (sortByCreatedAtDesc t)

/-- Query parameters handed to the adapter by the list handlers: pagination
(`none` models JS `null`, set by the count-params stripping) and the
query filter. -/
structure AdapterParams where
  limit : Option Nat
  offset : Option Nat
  query : Game → Bool

/-- `this.adapter.find(params)`: filter by the query, sort by descending
`createdAt`, skip `offset` rows, take `limit` rows (no limit when null). -/
def adapterFind (store : Store) (p : AdapterParams) : List Game :=
  let rows := (sortByCreatedAtDesc (store.filter p.query)).drop (p.offset.getD 0)
  match p.limit with
  | none => rows
  | some l => rows.take l

/-- `this.adapter.count(countParams)`: the count of documents matching the
query; the underlying store counts from the query alone. -/
def adapterCount (store : Store) (p : AdapterParams) : Nat :=
  (store.filter p.query).length

/-- Lines 185-190 and 242-247: shallow-copy the find params and null the
pagination fields out when they are truthy; the query object is shared with
the find params. -/
def stripPagination (p : AdapterParams) : AdapterParams :=
  let p1 := if p.limit.getD 0 ≠ 0 then { p with limit := none } else p
  if p1.offset.getD 0 ≠ 0 then { p1 with offset := none } else p1

/-- Request parameters of the `list` action.  `creator`, `limit`, `offset`
are declared in the params schema (lines 148-152); `tag` is undeclared but
read by the handler (line 166). -/
structure ListParams where
  creator : Option String
  limit : Option Nat
  offset : Option Nat
  tag : Option String
deriving Repr, DecidableEq

/-- The query built by the `list` handler (lines 162-167): empty unless a
`tag` is supplied, in which case `query.tagList = { $in: [tag] }`.  The
`creator` parameter is never copied into the query. -/
def listQuery (p : ListParams) (g : Game) : Bool :=
  match p.tag with
  | some t => g.tagList.contains t
  | none => true

/-- The find params built by the `list` handler (lines 157-163). -/
def listFindParams (p : ListParams) : AdapterParams :=
  { limit := some (effLimit p.limit)
    offset := some (effOffset p.offset)
    query := listQuery p }

/-- Response envelope of the `list` action: transformed rows under `games`
plus the count written onto the envelope as `gamesCount` (line 203). -/
structure ListResult where
  games : List Game
  gamesCount : Nat
deriving Repr, DecidableEq

/-- The `list` handler (lines 153-205): run the row fetch and the count from
the pagination-stripped copy of the same params, then join the results. -/
def list (store : Store) (p : ListParams) : ListResult :=
  let params := listFindParams p
  let countParams := stripPagination params
  { games := adapterFind store params
    gamesCount := adapterCount store countParams }

/-- The cache key of the `list` action, from `cache.keys`
`["#userID", "creator", "limit", "offset"]` (line 145): one component per
listed key, read from the request meta and params; a missing parameter
contributes its absence marker.  `tag` is not listed. -/
def listCacheKey (userID : Option String) (p : ListParams) : List (Option String) :=
  [userID, p.creator, p.limit.map toString, p.offset.map toString]

/-- The query built by the `listByUser` handler (lines 236-238):
`{ game: ctx.params.creator }`, a match on the `game` field of the stored
document. -/
def listByUserQuery (creator : String) (g : Game) : Bool :=
  g.getField "game" == some creator

/-- Response envelope of the `listByUser` action: the count is written onto
the envelope as `commentsCount` (line 260). -/
structure ListByUserResult where
  games : List Game
  commentsCount : Nat
deriving Repr, DecidableEq

/-- The `listByUser` handler (lines 227-262). -/
def listByUser (store : Store) (creator : String) (limit offset : Option Nat) :
    ListByUserResult :=
  let params : AdapterParams :=
    { limit := some (effLimit limit)
      offset := some (effOffset offset)
      query := listByUserQuery creator }
  let countParams := stripPagination params
  { games := adapterFind store params
    commentsCount := adapterCount store countParams }

/-- Errors thrown by the action handlers: `MoleculerClientError(..., 404)`
for a missing entity, `ForbiddenError` for an ownership failure, and the
framework validation error for an entity failing `validateEntity`. -/
inductive SvcError where
  | notFound
  | forbidden
  | invalidEntity
deriving Repr, DecidableEq

/-- The update patch `ctx.params.game` (lines 101-107): `name` and
`description` are declared optional props.  The object schema is not strict,
so an undeclared key passes validation and is kept; the `creator` component
models such an undeclared key. -/
structure Patch where
  name : Option String
  description : Option String
  creator : Option String
deriving Repr, DecidableEq

/-- The params schema of `update` on the patch object: `name` and
`description` must be non-empty strings when present; undeclared keys are
accepted. -/
def validPatch (p : Patch) : Bool :=
  (match p.name with | some s => 1 ≤ s.length | none => true) &&
  (match p.description with | some s => 1 ≤ s.length | none => true)

/-- Effect of `updateById(id, { "$set": newData })` on one document: the
supplied fields overwrite, every other field keeps its value; the handler put
`updatedAt = now` into `newData` first (line 111). -/
def applySet (g : Game) (p : Patch) (now : Nat) : Game :=
  { g with
    name := p.name.getD g.name
    description := p.description.getD g.description
    creator := p.creator.getD g.creator
    updatedAt := now }

/-- `this.getById(id)`: resolve a document by its `_id`. -/
def getById (store : Store) (id : String) : Option Game :=
  store.find? (fun g => g._id == id)

/-- The `update` handler (lines 109-130): resolve by id, 404 when absent,
Forbidden when the stored `creator` differs from the acting user, otherwise
`$set` the patch onto the stored document and return the updated document.
The resulting store is returned alongside the response. -/
def update (store : Store) (id : String) (p : Patch) (actor : String) (now : Nat) :
    Store × Except SvcError Game :=
  match getById store id with
  | none => (store, .error .notFound)
  | some game =>
    if game.creator ≠ actor then (store, .error .forbidden)
    else
      (store.map (fun g => if g._id == game._id then applySet g p now else g),
       .ok (applySet game p now))

/-- `findBySlug(slug)` (lines 318-320): `this.adapter.findOne({ slug })`,
the first stored document bearing that slug. -/
def findBySlug (store : Store) (s : String) : Option Game :=
  store.find? (fun g => g.slug == s)

/-- The `remove` handler (lines 284-299): resolve by slug, 404 when absent,
Forbidden when not the owner, otherwise `removeById(entity._id)` and return
the removed record. -/
def remove (store : Store) (slugParam : String) (actor : String) :
    Store × Except SvcError Game :=
  match findBySlug store slugParam with
  | none => (store, .error .notFound)
  | some entity =>
    if entity.creator ≠ actor then (store, .error .forbidden)
    else (store.filter (fun g => !(g._id == entity._id)), .ok entity)

/-- The base-36 digit characters used by JS `Number.prototype.toString(36)`:
`0`-`9` then `a`-`z`. -/
def base36Char (d : Nat) : Char :=
  if d < 10 then Char.ofNat (48 + d) else Char.ofNat (87 + d)

/-- Digit accumulator loop producing base-36 digits, least significant
first into the accumulator; the fuel argument dominates the digit count. -/
def toBase36Core : Nat → Nat → List Char → List Char
  | 0, _, ds => ds
  | fuel + 1, n, ds =>
    if n < 36 then base36Char (n % 36) :: ds
    else toBase36Core fuel (n / 36) (base36Char (n % 36) :: ds)

/-- The base-36 digit string of a natural number, most significant digit
first, no padding (`0` is the single digit `0`). -/
def toBase36Digits (n : Nat) : List Char :=
  toBase36Core (n + 1) n []

/-- JS `| 0` (ToInt32): wrap into the signed 32-bit range. -/
def jsInt32 (n : Nat) : Int :=
  let m : Nat := n % 2 ^ 32
  if m < 2 ^ 31 then (m : Int) else (m : Int) - 2 ^ 32

/-- JS `Number.prototype.toString(36)` on an integer: minus sign for a
negative value, then the base-36 digits of its absolute value. -/
def jsToStringBase36 (i : Int) : String :=
  if i < 0 then "-" ++ String.mk (toBase36Digits i.natAbs)
  else String.mk (toBase36Digits i.natAbs)

/-- Modelled from the spec: the external `slug` library called with
`{ lower: true }` (the library itself is not part of this repository).  Per
the spec it yields a URL-safe lower-cased form of the name: letters are
lower-cased, digits kept, spaces become `-`, everything else is dropped. -/
def slugifyModel (s : String) : String :=
  String.mk (s.data.filterMap (fun c =>
    if c.isAlpha then some c.toLower
    else if c.isDigit then some c
    else if c = ' ' then some '-' else none))

/-- Line 73: `slug(entity.name, { lower: true }) + "-" +
(Math.random() * Math.pow(36, 6) | 0).toString(36)`.  The randomness is the
truncated integer `r = floor(Math.random() * 36^6)`, in `[0, 36^6)`. -/
def makeSlug (name : String) (r : Nat) : String :=
  slugifyModel name ++ "-" ++ jsToStringBase36 (jsInt32 r)

/-- The `create` handler (lines 69-83): validate the entity (`name` and
`description` non-empty per `entityValidator`), then write slug, creator and
timestamps and insert; `newId` is the `_id` assigned by the store. -/
def createGame (name description : String) (actor : String) (now : Nat) (r : Nat)
    (newId : String) : Except SvcError Game :=
  if 1 ≤ name.length && 1 ≤ description.length then
    .ok { _id := newId
          slug := makeSlug name r
          name := name
          description := description
          creator := actor
          createdAt := now
          updatedAt := now
          tagList := [] }
  else .error .invalidEntity

/-- Argument shape of `transformResult` (lines 329-339): either a JS array
of documents or a single, possibly null, document. -/
inductive Entities where
  | arr (items : List Game)
  | single (entity : Option Game)

/-- Result shape of `transformResult`: `{ games }` for an array argument,
`{ game }` otherwise. -/
inductive WrappedResult where
  | games (items : List (Option Game))
  | game (entity : Option Game)
deriving Repr, DecidableEq

/-- `transformEntity` (lines 348-352): null in, null out; otherwise the
entity unchanged. -/
def transformEntity (entity : Option Game) : Option Game :=
  match entity with
  | none => none
  | some e => some e

/-- `transformResult` (lines 329-339): wrap an array as `{ games }`, mapping
`transformEntity` over the items in order, and anything else as `{ game }`. -/
def transformResult : Entities → WrappedResult
  | .arr items => .games (items.map (fun item => transformEntity (some item)))
  | .single e => .game (transformEntity e)

/-- A stored game created by user `u1`, used as a concrete store content. -/
def gameU1 : Game :=
  { _id := "g1", slug := "chess-a1b2c3", name := "Chess", description := "d"
    creator := "u1", createdAt := 1, updatedAt := 1, tagList := [] }

/-- A stored game tagged `a`. -/
def gTagA : Game :=
  { _id := "g2", slug := "go-x1y2z3", name := "Go", description := "d"
    creator := "u1", createdAt := 2, updatedAt := 2, tagList := ["a"] }

/-- List request supplying only the tag filter `a`. -/
def pTagA : ListParams := { creator := none, limit := none, offset := none, tag := some "a" }

/-- List request supplying only the tag filter `b`. -/
def pTagB : ListParams := { creator := none, limit := none, offset := none, tag := some "b" }

theorem stripPagination_query (p : AdapterParams) : (stripPagination p).query = p.query := by
  unfold stripPagination
  split <;> dsimp only <;> split <;> rfl

/-- Claim C9: `transformResult` wraps a list input as `{games: [...]}` with
one transformed element per input element in order, a non-list input as
`{game: entity}`, and a null single entity yields `{game: null}` rather than
an error. -/
theorem transformResult_shapes :
    (∀ items : List Game,
        transformResult (.arr items) = .games (items.map (fun g => some g))) ∧
    (∀ g : Game, transformResult (.single (some g)) = .game (some g)) ∧
    transformResult (.single none) = .game none :=
  ⟨fun _ => rfl, fun _ => rfl, rfl⟩

/-- Claim C10: in `list` and `listByUser` a supplied limit of 0 is falsy and
replaced by the default 20, so the call behaves exactly like one without a
limit, and a supplied offset of 0 coincides with the default 0. -/
theorem limit_zero_uses_default :
    effLimit (some 0) = 20 ∧ effLimit none = 20 ∧
    effOffset (some 0) = effOffset none ∧
    (∀ (store : Store) (c t : Option String),
        list store { creator := c, limit := some 0, offset := some 0, tag := t } =
        list store { creator := c, limit := none, offset := none, tag := t }) ∧
    (∀ (store : Store) (c : String),
        listByUser store c (some 0) (some 0) = listByUser store c none none) :=
  ⟨rfl, rfl, rfl, fun _ _ _ => rfl, fun _ _ => rfl⟩

/-- Claim C1: the `listByUser` handler filters on the `game` field, which no
stored game document carries, so it returns the empty envelope and a zero
count for every store and every creator id — in particular for a store
holding a game whose `creator` equals the requested id. -/
theorem listByUser_returns_no_game :
    (∀ (store : Store) (c : String) (l o : Option Nat),
        listByUser store c l o = { games := [], commentsCount := 0 }) ∧
    gameU1.creator = "u1" ∧
    listByUser [gameU1] "u1" none none = { games := [], commentsCount := 0 } := by
  refine ⟨fun store c l o => ?_, rfl, rfl⟩
  have hf : store.filter (listByUserQuery c) = [] := by
    rw [List.filter_eq_nil_iff]
    intro g _
    simp [listByUserQuery, Game.getField]
  simp [listByUser, adapterFind, adapterCount, stripPagination_query, hf,
    sortByCreatedAtDesc, ListByUserResult.mk.injEq]

/-- Claim C2 counterexample: two list requests by the same actor that differ
only in the supplied tag filter share one cache key, although the tag
changes the query and the results differ on a one-game store. -/
theorem list_cacheKey_tag_cex :
    listCacheKey (some "u1") pTagA = listCacheKey (some "u1") pTagB ∧
    pTagA.tag ≠ pTagB.tag ∧
    list [gTagA] pTagA ≠ list [gTagA] pTagB :=
  ⟨rfl, by decide, by decide⟩

/-- Claim C2 amended: the cache key of `list` is the deterministic tuple of
actor identity and the declared `creator`, `limit`, `offset` parameters, a
missing optional parameter contributing its absence marker; the undeclared
`tag` filter is not part of the key, so changing only the tag never changes
the key. -/
theorem list_cacheKey_amended :
    ∀ (u : Option String) (p : ListParams) (t : Option String),
      listCacheKey u { p with tag := t } = listCacheKey u p :=
  fun _ _ _ => rfl

/-- A stored game owned by user `A`. -/
def gameA : Game :=
  { _id := "ga", slug := "chess-zzzzzz", name := "Chess", description := "d"
    creator := "A", createdAt := 1, updatedAt := 1, tagList := [] }

/-- A patch carrying the undeclared `creator` key and nothing else. -/
def sneakyPatch : Patch := { name := none, description := none, creator := some "B" }

/-- A patch supplying only `description`. -/
def patchDescX : Patch := { name := none, description := some "x", creator := none }

theorem update_store_map_eq {α : Type} (store : Store) (id : String) (p : Patch)
    (actor : String) (now : Nat) (f : Game → α)
    (hf : ∀ g : Game, f (applySet g p now) = f g) :
    (update store id p actor now).1.map f = store.map f := by
  unfold update
  cases hfind : getById store id with
  | none => rfl
  | some game =>
    dsimp only
    by_cases hc : game.creator ≠ actor
    · rw [if_pos hc]
    · rw [if_neg hc]
      show (store.map fun g => if g._id == game._id then applySet g p now else g).map f =
        store.map f
      rw [List.map_map]
      apply List.map_congr_left
      intro g _
      by_cases hid : g._id = game._id
      · simp [hid, hf]
      · simp [hid]

/-- Claim C3 counterexample: the update params schema is not strict, so the
patch `{creator: "B"}` is accepted, and a successful update by the owner
rewrites the stored `creator` field from `A` to `B`. -/
theorem update_creator_overwrite_cex :
    validPatch sneakyPatch = true ∧
    gameA.creator = "A" ∧
    (update [gameA] "ga" sneakyPatch "A" 5).2 = .ok (applySet gameA sneakyPatch 5) ∧
    (update [gameA] "ga" sneakyPatch "A" 5).1.map (fun g => g.creator) = ["B"] :=
  ⟨rfl, rfl, rfl, rfl⟩

/-- Claim C3 amended: the `creator` field of every stored game is unchanged
by every successful `update` whose patch does not itself carry a `creator`
key; the declared patch fields `name` and `description` can never move it. -/
theorem update_preserves_creator (store : Store) (id : String) (p : Patch)
    (actor : String) (now : Nat) (hp : p.creator = none) :
    (update store id p actor now).1.map (fun g => (g._id, g.creator)) =
      store.map (fun g => (g._id, g.creator)) :=
  update_store_map_eq store id p actor now _ (fun g => by simp [applySet, hp])

/-- Witness for the amended claim C3 at a concrete store and patch. -/
theorem update_preserves_creator_witness :
    (update [gameA] "ga" patchDescX "A" 5).1.map (fun g => (g._id, g.creator)) =
      [gameA].map (fun g => (g._id, g.creator)) :=
  update_preserves_creator [gameA] "ga" patchDescX "A" 5 rfl

/-- Claim C5: an `update` of a stored game by an actor other than its
creator fails Forbidden and returns the store unchanged. -/
theorem update_nonowner_forbidden (store : Store) (id : String) (p : Patch)
    (actor : String) (now : Nat) (g : Game)
    (hfind : getById store id = some g) (hne : g.creator ≠ actor) :
    update store id p actor now = (store, .error .forbidden) := by
  unfold update
  rw [hfind]
  simp [hne]

/-- Witness for claim C5: user `B` cannot update the game of user `A`. -/
theorem update_nonowner_forbidden_witness :
    update [gameA] "ga" patchDescX "B" 7 = ([gameA], .error .forbidden) :=
  update_nonowner_forbidden [gameA] "ga" patchDescX "B" 7 gameA rfl (by decide)

/-- Claim C6: `update` applies its patch as a merge of the supplied fields
only: a successful update whose patch has no `name` returns the `$set`
result, whose `name` equals the stored one, and leaves the `name` of every
stored document unchanged. -/
theorem update_partial_merge (store : Store) (id : String) (p : Patch)
    (actor : String) (now : Nat) (g : Game)
    (hfind : getById store id = some g) (hown : g.creator = actor)
    (hname : p.name = none) :
    (update store id p actor now).2 = .ok (applySet g p now) ∧
    (applySet g p now).name = g.name ∧
    (update store id p actor now).1.map (fun x => (x._id, x.name)) =
      store.map (fun x => (x._id, x.name)) := by
  refine ⟨?_, by simp [applySet, hname],
    update_store_map_eq store id p actor now _ (fun x => by simp [applySet, hname])⟩
  unfold update
  rw [hfind]
  simp [hown]

/-- Witness for claim C6: updating with `{description: "x"}` leaves `name`
unchanged. -/
theorem update_partial_merge_witness :
    (update [gameA] "ga" patchDescX "A" 5).2 = .ok (applySet gameA patchDescX 5) ∧
    (applySet gameA patchDescX 5).name = gameA.name ∧
    (update [gameA] "ga" patchDescX "A" 5).1.map (fun x => (x._id, x.name)) =
      [gameA].map (fun x => (x._id, x.name)) :=
  update_partial_merge [gameA] "ga" patchDescX "A" 5 gameA rfl rfl rfl

/-- One of five stored games sharing no slug, all matching the empty filter. -/
def mkG (i : Nat) : Game :=
  { _id := toString i, slug := "s" ++ toString i, name := "n", description := "d"
    creator := "u1", createdAt := i, updatedAt := i, tagList := [] }

/-- A store of five games. -/
def fiveGames : Store := [mkG 1, mkG 2, mkG 3, mkG 4, mkG 5]

/-- Claim C7: the count of `list` is computed from the same filter as the
row fetch with pagination stripped, so it equals the number of all stored
documents matching the filter; with `limit=2, offset=0` against five
matching documents the result has exactly 2 items and a count of 5. -/
theorem list_count_ignores_pagination :
    (∀ (store : Store) (p : ListParams),
        (list store p).gamesCount = (store.filter (listQuery p)).length) ∧
    (list fiveGames { creator := none, limit := some 2, offset := some 0, tag := none }).games.length = 2 ∧
    (list fiveGames { creator := none, limit := some 2, offset := some 0, tag := none }).gamesCount = 5 := by
  refine ⟨fun store p => ?_, by decide, by decide⟩
  simp [list, adapterCount, stripPagination_query, listFindParams]

/-- Claim C8: `remove` fails NotFound on an unknown slug leaving the store
unchanged, fails Forbidden for a non-owner leaving the store unchanged, and
for the owner deletes exactly the resolved document by its `_id` and returns
it, after which the slug resolves to nothing (slugs being unique). -/
theorem remove_spec (store : Store) (s actor : String) :
    (findBySlug store s = none → remove store s actor = (store, .error .notFound)) ∧
    (∀ e : Game, findBySlug store s = some e → e.creator ≠ actor →
        remove store s actor = (store, .error .forbidden)) ∧
    (∀ e : Game, findBySlug store s = some e → e.creator = actor →
        (∀ a ∈ store, ∀ b ∈ store, a.slug = b.slug → a = b) →
        remove store s actor = (store.filter (fun g => !(g._id == e._id)), .ok e) ∧
        findBySlug (remove store s actor).1 s = none) := by
  refine ⟨fun h => by unfold remove; rw [h],
    fun e he hne => by unfold remove; rw [he]; simp [hne],
    fun e he hown huniq => ?_⟩
  have hrem : remove store s actor = (store.filter (fun g => !(g._id == e._id)), .ok e) := by
    unfold remove
    rw [he]
    simp [hown]
  refine ⟨hrem, ?_⟩
  rw [hrem]
  show List.find? (fun g => g.slug == s) (store.filter fun g => !(g._id == e._id)) = none
  rw [List.find?_eq_none]
  intro x hx hslug
  rw [List.mem_filter] at hx
  obtain ⟨hxs, hxid⟩ := hx
  have he_mem : e ∈ store := List.mem_of_find?_eq_some he
  have he_slug : e.slug = s := by simpa using List.find?_some he
  have hx_slug : x.slug = s := by simpa using hslug
  have hxe : x = e := huniq x hxs e he_mem (by rw [hx_slug, he_slug])
  rw [hxe] at hxid
  simp at hxid

/-- Witness for claim C8: the owner removes an existing slug, gets the
removed record back, and the slug then resolves to nothing. -/
theorem remove_spec_witness :
    remove [gameA] "chess-zzzzzz" "A" = ([], .ok gameA) ∧
    findBySlug (remove [gameA] "chess-zzzzzz" "A").1 "chess-zzzzzz" = none := by
  have h := (remove_spec [gameA] "chess-zzzzzz" "A").2.2 gameA rfl rfl (by decide)
  exact ⟨by rw [h.1]; rfl, h.2⟩

/-- A character of the JS base-36 alphabet: `0`-`9` or `a`-`z`. -/
def isBase36Char (c : Char) : Bool :=
  ('0' ≤ c && c ≤ '9') || ('a' ≤ c && c ≤ 'z')

/-- The pattern `chess-[0-9a-z]{6}` from the spec scenario: the prefix
`chess-` followed by exactly six base-36 characters. -/
def matchesChess6 (s : String) : Bool :=
  match s.data with
  | 'c' :: 'h' :: 'e' :: 's' :: 's' :: '-' :: rest =>
    rest.length == 6 && rest.all isBase36Char
  | _ => false

theorem base36Char_valid (d : Nat) (hd : d < 36) : isBase36Char (base36Char d) = true := by
  interval_cases d <;> decide

theorem toBase36Core_all (fuel : Nat) : ∀ (n : Nat) (acc : List Char),
    acc.all isBase36Char = true → (toBase36Core fuel n acc).all isBase36Char = true := by
  induction fuel with
  | zero => intro n acc hacc; exact hacc
  | succ fuel ih =>
    intro n acc hacc
    unfold toBase36Core
    have hd : isBase36Char (base36Char (n % 36)) = true :=
      base36Char_valid _ (Nat.mod_lt _ (by omega))
    by_cases h : n < 36
    · rw [if_pos h]
      simp [hd, hacc]
    · rw [if_neg h]
      exact ih _ _ (by simp [hd, hacc])

theorem toBase36Core_length_le (fuel : Nat) : ∀ (k n : Nat) (acc : List Char),
    n < 36 ^ k → 1 ≤ k → n < fuel →
    (toBase36Core fuel n acc).length ≤ k + acc.length := by
  induction fuel with
  | zero => intro k n acc _ _ h; omega
  | succ fuel ih =>
    intro k n acc hn h1 hf
    unfold toBase36Core
    by_cases h : n < 36
    · rw [if_pos h]
      simp
      omega
    · rw [if_neg h]
      have hk2 : 2 ≤ k := by
        by_contra hlt
        have hk1 : k = 1 := by omega
        rw [hk1, pow_one] at hn
        omega
      have hdiv : n / 36 < 36 ^ (k - 1) := by
        rw [Nat.div_lt_iff_lt_mul (by norm_num)]
        calc n < 36 ^ k := hn
          _ = 36 ^ (k - 1) * 36 := by
            rw [← pow_succ]
            congr 1
            omega
      have hdf : n / 36 < fuel := by
        have hx : n / 36 < n := Nat.div_lt_self (by omega) (by omega)
        omega
      have hrec := ih (k - 1) (n / 36) (base36Char (n % 36) :: acc) hdiv (by omega) hdf
      simp at hrec ⊢
      omega

theorem toBase36Core_length_ge (fuel : Nat) : ∀ (n : Nat) (acc : List Char), n < fuel →
    1 + acc.length ≤ (toBase36Core fuel n acc).length := by
  induction fuel with
  | zero => intro n acc h; omega
  | succ fuel ih =>
    intro n acc hn
    unfold toBase36Core
    by_cases h : n < 36
    · rw [if_pos h]
      simp
      omega
    · rw [if_neg h]
      have hdf : n / 36 < fuel := by
        have hx : n / 36 < n := Nat.div_lt_self (by omega) (by omega)
        omega
      have hrec := ih (n / 36) (base36Char (n % 36) :: acc) hdf
      simp at hrec ⊢
      omega

theorem natAbs_jsInt32_lt (r : Nat) (hr : r < 36 ^ 6) : (jsInt32 r).natAbs < 36 ^ 6 := by
  have hr32 : r % 2 ^ 32 = r := Nat.mod_eq_of_lt (by omega)
  unfold jsInt32
  dsimp only
  rw [hr32]
  by_cases h : r < 2 ^ 31
  · rw [if_pos h]
    simpa using hr
  · rw [if_neg h]
    omega

theorem toBase36Digits_bounds (n : Nat) (hn : n < 36 ^ 6) :
    1 ≤ (toBase36Digits n).length ∧ (toBase36Digits n).length ≤ 6 ∧
    (toBase36Digits n).all isBase36Char = true := by
  unfold toBase36Digits
  have hall := toBase36Core_all (n + 1) n [] rfl
  have hle := toBase36Core_length_le (n + 1) 6 n [] hn (by omega) (by omega)
  have hge := toBase36Core_length_ge (n + 1) n [] (by omega)
  simp at hle hge
  exact ⟨hge, hle, hall⟩

/-- Claim C4 counterexample: at randomness 0 the created slug for `Chess` is
`chess-0`, whose suffix is one character, not six: the produced slug does
not match `chess-[0-9a-z]{6}`, though the matcher accepts a genuine
six-character suffix. -/
theorem create_slug_not_six_cex :
    createGame "Chess" "d" "A" 0 0 "id1" =
      .ok { _id := "id1", slug := "chess-0", name := "Chess", description := "d"
            creator := "A", createdAt := 0, updatedAt := 0, tagList := [] } ∧
    matchesChess6 "chess-0" = false ∧
    matchesChess6 "chess-a1b2c3" = true :=
  ⟨rfl, by decide, by decide⟩

/-- Claim C4 amended: a successful create yields the slug
`slugify(name) + "-" + suffix` where the suffix is the JS base-36 rendering
of the 32-bit truncation of the random draw below `36^6`: between one and
six base-36 characters, preceded by a minus sign exactly when the truncation
wrapped negative; `slugify` lower-cases `Chess` to `chess`. -/
theorem create_slug_format (name description actor newId : String) (now r : Nat)
    (hname : 1 ≤ name.length) (hdesc : 1 ≤ description.length) (hr : r < 36 ^ 6) :
    (∃ g : Game, createGame name description actor now r newId = .ok g ∧
        g.slug = slugifyModel name ++ "-" ++ jsToStringBase36 (jsInt32 r)) ∧
    (∃ ds : List Char, 1 ≤ ds.length ∧ ds.length ≤ 6 ∧ ds.all isBase36Char = true ∧
        (jsToStringBase36 (jsInt32 r) = String.mk ds ∨
         jsToStringBase36 (jsInt32 r) = "-" ++ String.mk ds)) ∧
    slugifyModel "Chess" = "chess" := by
  refine ⟨?_, ?_, rfl⟩
  · have hc : createGame name description actor now r newId =
        .ok { _id := newId, slug := makeSlug name r, name := name
              description := description, creator := actor
              createdAt := now, updatedAt := now, tagList := [] } := by
      unfold createGame
      rw [if_pos (by simp [hname, hdesc])]
    exact ⟨_, hc, rfl⟩
  · obtain ⟨h1, h2, h3⟩ := toBase36Digits_bounds (jsInt32 r).natAbs (natAbs_jsInt32_lt r hr)
    refine ⟨toBase36Digits (jsInt32 r).natAbs, h1, h2, h3, ?_⟩
    unfold jsToStringBase36
    by_cases h : jsInt32 r < 0
    · rw [if_pos h]
      right
      rfl
    · rw [if_neg h]
      left
      rfl

/-- Witness for the amended claim C4 at concrete inputs. -/
theorem create_slug_format_witness :
    (∃ g : Game, createGame "Chess" "d" "A" 7 123456789 "id2" = .ok g ∧
        g.slug = slugifyModel "Chess" ++ "-" ++ jsToStringBase36 (jsInt32 123456789)) ∧
    (∃ ds : List Char, 1 ≤ ds.length ∧ ds.length ≤ 6 ∧ ds.all isBase36Char = true ∧
        (jsToStringBase36 (jsInt32 123456789) = String.mk ds ∨
         jsToStringBase36 (jsInt32 123456789) = "-" ++ String.mk ds)) ∧
    slugifyModel "Chess" = "chess" :=
  create_slug_format "Chess" "d" "A" "id2" 7 123456789 (by decide) (by decide) (by norm_num)

end GamesService
